import Mathlib

/-!
Verification of the task-api-charm gateway core against its specification.

The development shallowly embeds the two Python source files:
  * `src/charm.py`  — configuration validation and config-file update
    (`_valid_actions`, `_update_config_file`, `_write_config_file`);
  * `src/server.py` — route derivation, handler closures, command
    execution and bearer-token lookup (`configure_routes`,
    `make_route_func`, `run_bash_command`, `verify_token`).

Python values parsed from YAML are embedded as the inductive `Yaml`;
Python dicts become association lists; external effects (the PyYAML
parser `yaml.safe_load`, the Jinja template renderer, the shell) are
passed in as function parameters so that the embedded code stays a pure
function of its inputs.  Leading underscores of Python method names are
dropped (`_valid_actions` becomes `valid_actions`, and so on).
-/

namespace TaskAPI

/-- A parsed YAML value, the shape `yaml.safe_load` can return.
Mappings are association lists of key/value pairs. -/
inductive Yaml where
  | null : Yaml
  | bool : Bool → Yaml
  | int : Int → Yaml
  | str : String → Yaml
  | seq : List Yaml → Yaml
  | map : List (Yaml × Yaml) → Yaml

/-- Python `d is None` on a parsed YAML value. -/
def yamlIsNull : Yaml → Bool
  | .null => true
  | _ => false

/-- Python `"k" in d` on a dict `d`: the string `k` occurs among the keys
(a key equal to a Python string is itself a string). -/
def yamlHasKey (entries : List (Yaml × Yaml)) (k : String) : Bool :=
  entries.any (fun p =>
    match p.1 with
    | .str s => s == k
    | _ => false)

/-- The key/value entries of a YAML mapping (Python dict); `[]` for any
other value (only consulted after `isinstance(action, dict)` holds). -/
def yamlEntries : Yaml → List (Yaml × Yaml)
  | .map entries => entries
  | _ => []

/-- Embeds `charm.py` `_actions_is_list`: `isinstance(actions, list)`. -/
def actions_is_list : Yaml → Bool
  | .seq _ => true
  | _ => false

/-- Embeds `charm.py` `_action_is_dict`: `isinstance(action, dict)`. -/
def action_is_dict : Yaml → Bool
  | .map _ => true
  | _ => false

/-- Embeds `charm.py` `_valid_actions_struct`: walks the actions list and returns
`False` at the first element that is not a dict or lacks the key `"name"`
or the key `"cmd"`; returns `True` when the loop completes. -/
def valid_actions_struct : List Yaml → Bool
  | [] => true
  | action :: rest =>
    if !(action_is_dict action) then false
    else if !(yamlHasKey (yamlEntries action) "name")
        || !(yamlHasKey (yamlEntries action) "cmd") then false
    else valid_actions_struct rest

/-- Embeds `charm.py` `_valid_actions`: the parsed value must be a list and every
element must pass `_valid_actions_struct`. -/
def valid_actions (actions : Yaml) : Bool :=
  if !(actions_is_list actions) then false
  else
    match actions with
    | .seq l => if !(valid_actions_struct l) then false else true
    | _ => false

/-- Embeds the `charm.py` tokens shape check inside `_update_config_file`:
`isinstance(tokens, dict) and all(isinstance(k, str) and isinstance(v, str)
for k, v in tokens.items())`. -/
def tokens_valid_dict : Yaml → Bool
  | .map entries =>
    entries.all (fun p =>
      (match p.1 with | .str _ => true | _ => false)
      && (match p.2 with | .str _ => true | _ => false))
  | _ => false

/-- A Juju unit status as set by the charm (`ops.ActiveStatus` /
`ops.BlockedStatus` with their message). -/
inductive Status where
  | active : String → Status
  | blocked : String → Status
deriving DecidableEq, Repr

/-- The charm configuration options read by `_update_config_file`:
`self.config["actions"]`, `self.config["auth-enabled"]`,
`self.config["tokens"]` and `self.config["port"]`.  `actions` and
`tokens` are raw YAML strings as stored by Juju; `tokens` may be null
(`none`), which `_update_config_file` tests with `is not None`. -/
structure CharmConfig where
  actions : String
  auth_enabled : Bool
  tokens : Option String
  port : Int
deriving Repr

/-- Result of one run of `_update_config_file`: the unit status it sets
and the content of the config file afterwards (`fileAfter = fileBefore`
when the function returned without calling `_write_config_file`). -/
structure UpdateResult where
  status : Status
  fileAfter : String
deriving DecidableEq, Repr

/-- Embeds `charm.py` `_update_config_file`, with its external collaborators as
parameters: `safeLoad` is PyYAML `yaml.safe_load` (`.error` models a
raised `yaml.YAMLError`), `render` is `_render_config_file` (a Jinja
template lookup over files not part of the gateway core; its arguments
are the parsed actions, `auth_enabled`, the parsed tokens — `none` when
the `tokens` option was null — and the port).  `fileBefore` is the
config file content on disk when the function starts; `_write_config_file`
overwrites it. -/
def update_config_file (safeLoad : String → Except String Yaml)
    (render : Yaml → Bool → Option Yaml → Int → String)
    (cfg : CharmConfig) (fileBefore : String) : UpdateResult :=
  match safeLoad cfg.actions with
  | .error _ => { status := .blocked "Invalid actions configuration", fileAfter := fileBefore }
  | .ok actions =>
    if yamlIsNull actions then
      { status := .blocked "Actions not configured", fileAfter := "" }
    else if !(valid_actions actions) then
      { status := .blocked "Invalid actions structure", fileAfter := fileBefore }
    else
      match cfg.tokens with
      | some tokensRaw =>
        match safeLoad tokensRaw with
        | .error _ =>
          { status := .blocked "Invalid tokens configuration", fileAfter := fileBefore }
        | .ok tokens =>
          if !(tokens_valid_dict tokens) then
            { status := .blocked "Invalid tokens structure", fileAfter := fileBefore }
          else
            { status := .active "Actions configured"
              fileAfter := render actions cfg.auth_enabled (some tokens) cfg.port }
      | none =>
        { status := .active "Actions configured"
          fileAfter := render actions cfg.auth_enabled none cfg.port }

/-! ## server.py -/

/-- What the shell reports back for one command run: exit code, captured
standard output and captured standard error (`subprocess.run(command,
shell=True, check=True, text=True, capture_output=True)`). -/
structure ExecResult where
  exitCode : Int
  stdout : String
  stderr : String
deriving DecidableEq, Repr

/-- Embeds `server.py` `run_bash_command`: with `check=True`, a non-zero exit
raises `CalledProcessError`, caught and turned into the string
`f"An error occurred: {e.stderr}"`; a zero exit returns `result.stdout`.
The shell itself is the external parameter `shell`. -/
def run_bash_command (shell : String → ExecResult) (command : String) : String :=
  let result := shell command
  if result.exitCode = 0 then result.stdout
  else "An error occurred: " ++ result.stderr

/-- An HTTP response as produced by a route handler:
`jsonify({"output": output})` has status 200 and a JSON body whose
single field `"output"` carries `output`. -/
structure Response where
  statusCode : Nat
  output : String
deriving DecidableEq, Repr

/-- Embeds `server.py` `make_route_func`: the closure factory.  Called once per
loop iteration with that iteration's `action["cmd"]`, so every returned
handler holds its own `cmd` value.  The returned handler runs the
command through the given shell and wraps the result in
`jsonify({"output": ...})`. -/
def make_route_func (cmd : String) : (String → ExecResult) → Response :=
  fun shell => { statusCode := 200, output := run_bash_command shell cmd }

/-- Python `s.replace(old, new)` for a single-character pattern: with a
one-character `old`, substring replacement coincides with replacing each
matching character. -/
def pyReplaceChar (old new : Char) (s : String) : String :=
  String.mk (s.data.map (fun c => if c = old then new else c))

/-- Python `s.lower()`, restricted to the code range `Char.toLower`
handles (basic latin); characters outside it are left unchanged. -/
def pyLower (s : String) : String :=
  String.mk (s.data.map Char.toLower)

/-- Embeds `server.py` `configure_routes`:
`route_name = action["name"].replace(" ", "_").lower()`. -/
def route_name (name : String) : String :=
  pyLower (pyReplaceChar ' ' '_' name)

/-- Embeds `server.py` `configure_routes`: `route_path = "/" + route_name`. -/
def route_path (name : String) : String :=
  "/" ++ route_name name

/-- An element of the configured actions list as `configure_routes` uses
it: `action["name"]` and `action["cmd"]`, both strings. -/
structure Action where
  name : String
  cmd : String
deriving DecidableEq, Repr

/-- One registration made by `self.app.route(route_path, methods=["GET"],
endpoint=route_name)(route_func)`: the path, the endpoint name and the
bound handler closure (the auth wrapper, when enabled, gates the same
handler and does not change which command it runs). -/
structure Route where
  path : String
  endpoint : String
  handler : (String → ExecResult) → Response

/-- Embeds `server.py` `configure_routes`: one registration per element of the
actions list, in order; each iteration builds its handler by applying
`make_route_func` to that iteration's `action["cmd"]`. -/
def configure_routes (actions : List Action) : List Route :=
  actions.map (fun action =>
    { path := route_path action.name
      endpoint := route_name action.name
      handler := make_route_func action.cmd })

/-- Embeds `server.py` `verify_token`: `self.tokens.get(token)` — the token
table is a dict (embedded as an association list with distinct keys);
`get` returns the mapped identity or `None`. -/
def verify_token (tokens : List (String × String)) (token : String) : Option String :=
  tokens.lookup token

/-- The authorization credential of an incoming request: either no
`Authorization` header, or a scheme together with the token text. -/
inductive AuthHeader where
  | missing : AuthHeader
  | credential : String → String → AuthHeader
deriving DecidableEq, Repr

/-- Modelled from the spec: the bearer-auth request dispatch performed by
the external `flask_httpauth` library around `verify_token` (library
code, not part of this repository).  Spec §4.3: "Expects a bearer-scheme
credential in the request's authorization header. Looks up the
credential in TokenTable. Returns the mapped identity on match; returns
Unauthorized (mapped to HTTP 401) on missing header, malformed scheme,
or unknown token."  `.error 401` is the Unauthorized outcome. -/
def authenticate (tokens : List (String × String)) (h : AuthHeader) : Except Nat String :=
  match h with
  | .missing => .error 401
  | .credential scheme token =>
    if scheme ≠ "Bearer" then .error 401
    else
      match verify_token tokens token with
      | some identity => .ok identity
      | none => .error 401

/-- The spec's route-path formula (§3), read literally: `path = "/" +
lowercase(name) with spaces replaced by underscores`, i.e. spaces are
replaced AFTER lowercasing (the code lowercases after replacing). -/
def spec_route_path (name : String) : String :=
  "/" ++ pyReplaceChar ' ' '_' (pyLower name)


/-! ## Helper predicates and concrete oracles used by witnesses -/

/-- The malformedness condition of spec §4.1 on one actions-list element:
not a mapping, or a mapping lacking the key `"name"` or the key `"cmd"`. -/
def malformedAction (a : Yaml) : Bool :=
  !(action_is_dict a)
    || !(yamlHasKey (yamlEntries a) "name")
    || !(yamlHasKey (yamlEntries a) "cmd")

/-- A passing `_valid_actions_struct` run certifies every element: the loop
returns `True` only when no element is malformed. -/
theorem valid_actions_struct_all {l : List Yaml}
    (h : valid_actions_struct l = true) :
    ∀ a ∈ l, malformedAction a = false := by
  induction l with
  | nil => intro a ha; cases ha
  | cons b rest ih =>
    rw [valid_actions_struct] at h
    by_cases h1 : (!(action_is_dict b)) = true
    · rw [if_pos h1] at h; cases h
    · rw [if_neg h1] at h
      by_cases h2 : (!(yamlHasKey (yamlEntries b) "name")
          || !(yamlHasKey (yamlEntries b) "cmd")) = true
      · rw [if_pos h2] at h; cases h
      · rw [if_neg h2] at h
        intro a ha
        rcases List.mem_cons.mp ha with rfl | hmem
        · simp only [Bool.not_eq_true] at h1
          simp only [Bool.or_eq_true, Bool.not_eq_true] at h2
          push_neg at h2
          simp [malformedAction, h1, h2.1, h2.2]
        · exact ih h a hmem

/-- A concrete stand-in for `yaml.safe_load`, fixing parses for the handful
of document strings the witness configurations use. -/
def demoSafeLoad : String → Except String Yaml
  | "" => .ok .null
  | "[]" => .ok (Yaml.seq [])
  | "- 1" => .ok (Yaml.seq [Yaml.int 1])
  | "- name: hello\n  cmd: echo hello" =>
    .ok (Yaml.seq [Yaml.map [(.str "name", .str "hello"), (.str "cmd", .str "echo hello")]])
  | "abc123: alice" => .ok (Yaml.map [(.str "abc123", .str "alice")])
  | s => .error s

/-- A concrete stand-in for the Jinja rendering of the config file. -/
def demoRender : Yaml → Bool → Option Yaml → Int → String :=
  fun _ _ _ _ => "rendered config"

/-- A concrete shell for witnesses: `"ls"` succeeds with stdout `"files"`,
everything else exits 1 with stderr `"boom"`. -/
def demoShell : String → ExecResult :=
  fun cmd => if cmd = "ls" then ⟨0, "files", ""⟩ else ⟨1, "", "boom"⟩

/-! ## Claims -/

/-- C1: for every configuration, `configure_routes` registers exactly one
route per element of the actions list, each route's path is derived from
that element's name, and the handler bound to each route runs exactly that
element's `cmd` string through the shell — no handler captures another
action's command (in particular not the last action's). -/
theorem C1_one_route_per_action_binding_own_cmd
    (actions : List Action) (i : Nat)
    (h : i < actions.length) (h2 : i < (configure_routes actions).length)
    (shell : String → ExecResult) :
    (configure_routes actions).length = actions.length ∧
    ((configure_routes actions).get ⟨i, h2⟩).path = route_path ((actions.get ⟨i, h⟩).name) ∧
    ((configure_routes actions).get ⟨i, h2⟩).handler shell
      = { statusCode := 200, output := run_bash_command shell ((actions.get ⟨i, h⟩).cmd) } := by
  refine ⟨by simp [configure_routes], ?_, ?_⟩ <;>
    simp [configure_routes, make_route_func, List.get_eq_getElem]

/-- Witness for C1 at the spec §8 example configuration
`[{name:"List Files", cmd:"ls"}, {name:"Show Date", cmd:"date"}]`:
two routes; route 1 runs `"date"` (not `"ls"`), and under `demoShell`
(where `"date"` fails) it reports the failure text, showing it did not
capture the last-registered closure state of some other element. -/
theorem C1_one_route_per_action_binding_own_cmd_witness :
    (configure_routes [⟨"List Files", "ls"⟩, ⟨"Show Date", "date"⟩]).length = 2 ∧
    ((configure_routes [⟨"List Files", "ls"⟩, ⟨"Show Date", "date"⟩]).get
        ⟨0, by decide⟩).handler demoShell
      = { statusCode := 200, output := "files" } ∧
    ((configure_routes [⟨"List Files", "ls"⟩, ⟨"Show Date", "date"⟩]).get
        ⟨1, by decide⟩).handler demoShell
      = { statusCode := 200, output := "An error occurred: boom" } := by
  have h0 := C1_one_route_per_action_binding_own_cmd
    [⟨"List Files", "ls"⟩, ⟨"Show Date", "date"⟩] 0 (by decide) (by decide) demoShell
  have h1 := C1_one_route_per_action_binding_own_cmd
    [⟨"List Files", "ls"⟩, ⟨"Show Date", "date"⟩] 1 (by decide) (by decide) demoShell
  refine ⟨h0.1, ?_, ?_⟩
  · rw [h0.2.2]; rfl
  · rw [h1.2.2]; rfl

/-- C2: a route handler always answers HTTP 200 with a JSON body carrying
an `"output"` field; when the command exits non-zero the field holds
diagnostic text derived from the command's stderr, and when it exits zero
the field holds the command's stdout. -/
theorem C2_failing_command_still_200_with_diagnostic
    (shell : String → ExecResult) (cmd : String) :
    (make_route_func cmd shell).statusCode = 200 ∧
    ((shell cmd).exitCode ≠ 0 →
      (make_route_func cmd shell).output = "An error occurred: " ++ (shell cmd).stderr) ∧
    ((shell cmd).exitCode = 0 →
      (make_route_func cmd shell).output = (shell cmd).stdout) := by
  refine ⟨rfl, ?_, ?_⟩ <;> intro hc <;>
    simp [make_route_func, run_bash_command, hc]

/-- Witness for C2 under `demoShell`: the failing command `"exit 1"`
still yields status 200 with the diagnostic text, and `"ls"` yields its
stdout. -/
theorem C2_failing_command_still_200_with_diagnostic_witness :
    (make_route_func "exit 1" demoShell).statusCode = 200 ∧
    (make_route_func "exit 1" demoShell).output = "An error occurred: boom" ∧
    (make_route_func "ls" demoShell).output = "files" := by
  have hfail := C2_failing_command_still_200_with_diagnostic demoShell "exit 1"
  have hok := C2_failing_command_still_200_with_diagnostic demoShell "ls"
  refine ⟨hfail.1, ?_, ?_⟩
  · rw [hfail.2.1 (by decide)]; rfl
  · rw [hok.2.2 (by decide)]; rfl

/-- C3: a single malformed element of the actions list — one that is not a
mapping, or lacks the key `"name"` or the key `"cmd"` — makes
`_valid_actions` reject the whole list, and `_update_config_file` then
blocks the ENTIRE configuration with "Invalid actions structure", no
matter how well-formed the other elements are. -/
theorem C3_single_bad_element_rejects_whole_config
    (safeLoad : String → Except String Yaml)
    (render : Yaml → Bool → Option Yaml → Int → String)
    (cfg : CharmConfig) (fileBefore : String)
    (l : List Yaml) (a : Yaml)
    (hparse : safeLoad cfg.actions = .ok (.seq l))
    (ha : a ∈ l) (hbad : malformedAction a = true) :
    valid_actions (.seq l) = false ∧
    (update_config_file safeLoad render cfg fileBefore).status
      = .blocked "Invalid actions structure" := by
  have hstruct : valid_actions_struct l = false := by
    by_contra hc
    rw [Bool.not_eq_false] at hc
    have hall := valid_actions_struct_all hc a ha
    rw [hbad] at hall
    cases hall
  have hval : valid_actions (.seq l) = false := by
    simp [valid_actions, actions_is_list, hstruct]
  refine ⟨hval, ?_⟩
  simp [update_config_file, hparse, yamlIsNull, hval]

/-- Witness for C3: the one-element list parsed from `"- 1"` (its sole
element is the integer 1, not a mapping) blocks the configuration. -/
theorem C3_single_bad_element_rejects_whole_config_witness :
    valid_actions (.seq [Yaml.int 1]) = false ∧
    (update_config_file demoSafeLoad demoRender
      { actions := "- 1", auth_enabled := false, tokens := none, port := 8000 }
      "old content").status = .blocked "Invalid actions structure" :=
  C3_single_bad_element_rejects_whole_config demoSafeLoad demoRender
    { actions := "- 1", auth_enabled := false, tokens := none, port := 8000 }
    "old content" [Yaml.int 1] (Yaml.int 1) rfl (List.mem_singleton.mpr rfl) rfl

/-- C4 as stated is false: an actions value that parses to the EMPTY
sequence passes `_valid_actions` (the structure loop over zero elements
returns True), so `_update_config_file` reports
ActiveStatus("Actions configured") — the empty case is not reported as
configuration-not-ready. -/
theorem C4_counterexample_empty_actions_accepted :
    (update_config_file demoSafeLoad demoRender
      { actions := "[]", auth_enabled := false, tokens := none, port := 8000 }
      "old content").status = Status.active "Actions configured" ∧
    Status.active "Actions configured" ≠ Status.blocked "Actions not configured" :=
  ⟨rfl, by decide⟩

/-- C4 amended: a null actions value is reported as configuration-not-ready
(BlockedStatus("Actions not configured"), with the config file truncated to
empty), but a present-and-empty actions sequence is NOT: it passes
validation and (with the tokens option unset) yields
ActiveStatus("Actions configured"); the two outcomes remain
distinguishable. -/
theorem C4_amended_null_blocked_but_empty_accepted
    (safeLoad : String → Except String Yaml)
    (render : Yaml → Bool → Option Yaml → Int → String)
    (cfgN cfgE : CharmConfig) (f1 f2 : String)
    (hnull : safeLoad cfgN.actions = .ok .null)
    (hempty : safeLoad cfgE.actions = .ok (.seq []))
    (htok : cfgE.tokens = none) :
    update_config_file safeLoad render cfgN f1
      = { status := .blocked "Actions not configured", fileAfter := "" } ∧
    (update_config_file safeLoad render cfgE f2).status
      = Status.active "Actions configured" ∧
    Status.blocked "Actions not configured" ≠ Status.active "Actions configured" := by
  refine ⟨?_, ?_, by decide⟩
  · simp [update_config_file, hnull, yamlIsNull]
  · simp [update_config_file, hempty, htok, yamlIsNull, valid_actions,
      actions_is_list, valid_actions_struct]

/-- Witness for C4 (amended): under `demoSafeLoad`, the actions document
`""` parses to null and blocks with an emptied file, while `"[]"` parses
to the empty sequence and is accepted. -/
theorem C4_amended_null_blocked_but_empty_accepted_witness :
    update_config_file demoSafeLoad demoRender
      { actions := "", auth_enabled := false, tokens := none, port := 8000 }
      "old content"
      = { status := .blocked "Actions not configured", fileAfter := "" } ∧
    (update_config_file demoSafeLoad demoRender
      { actions := "[]", auth_enabled := true, tokens := none, port := 8000 }
      "old content").status = Status.active "Actions configured" ∧
    Status.blocked "Actions not configured" ≠ Status.active "Actions configured" :=
  C4_amended_null_blocked_but_empty_accepted demoSafeLoad demoRender
    { actions := "", auth_enabled := false, tokens := none, port := 8000 }
    { actions := "[]", auth_enabled := true, tokens := none, port := 8000 }
    "old content" "old content" rfl rfl rfl

/-- C5 as stated is false: token-shape validation is NOT conditioned on
`auth_enabled`.  With `auth_enabled` false and a tokens document that
parses to a non-mapping, `_update_config_file` still rejects the whole
configuration with "Invalid tokens structure". -/
theorem C5_counterexample_tokens_checked_with_auth_disabled :
    (update_config_file demoSafeLoad demoRender
      { actions := "- name: hello\n  cmd: echo hello", auth_enabled := false,
        tokens := some "- 1", port := 8000 }
      "old content").status = Status.blocked "Invalid tokens structure" := rfl

/-- C5 amended: token-shape validation is unconditional on `auth_enabled`
(the flag is read but never consulted for validation): whenever the tokens
option is non-null, a value that is not a string-to-string mapping blocks
the configuration, whatever `auth_enabled` is; and a null tokens option
never blocks, even when `auth_enabled` is true. -/
theorem C5_amended_token_validation_unconditional
    (safeLoad : String → Except String Yaml)
    (render : Yaml → Bool → Option Yaml → Int → String)
    (cfg : CharmConfig) (fileBefore : String) (a : Yaml)
    (hparse : safeLoad cfg.actions = .ok a)
    (hnn : yamlIsNull a = false)
    (hval : valid_actions a = true) :
    (∀ ts t, cfg.tokens = some ts → safeLoad ts = .ok t →
      tokens_valid_dict t = false →
      (update_config_file safeLoad render cfg fileBefore).status
        = .blocked "Invalid tokens structure") ∧
    (cfg.tokens = none →
      (update_config_file safeLoad render cfg fileBefore).status
        = Status.active "Actions configured") := by
  constructor
  · intro ts t htok hts hbad
    simp [update_config_file, hparse, hnn, hval, htok, hts, hbad]
  · intro htok
    simp [update_config_file, hparse, hnn, hval, htok]

/-- Witness for C5 (amended): with valid actions, the malformed tokens
document `"- 1"` blocks under BOTH `auth_enabled := false` and
`auth_enabled := true`, and a null tokens option is accepted with
`auth_enabled := true`. -/
theorem C5_amended_token_validation_unconditional_witness :
    (update_config_file demoSafeLoad demoRender
      { actions := "- name: hello\n  cmd: echo hello", auth_enabled := false,
        tokens := some "- 1", port := 8000 }
      "old content").status = .blocked "Invalid tokens structure" ∧
    (update_config_file demoSafeLoad demoRender
      { actions := "- name: hello\n  cmd: echo hello", auth_enabled := true,
        tokens := some "- 1", port := 8000 }
      "old content").status = .blocked "Invalid tokens structure" ∧
    (update_config_file demoSafeLoad demoRender
      { actions := "- name: hello\n  cmd: echo hello", auth_enabled := true,
        tokens := none, port := 8000 }
      "old content").status = Status.active "Actions configured" :=
  ⟨(C5_amended_token_validation_unconditional demoSafeLoad demoRender
      { actions := "- name: hello\n  cmd: echo hello", auth_enabled := false,
        tokens := some "- 1", port := 8000 }
      "old content" _ rfl rfl rfl).1 "- 1" (Yaml.seq [Yaml.int 1]) rfl rfl rfl,
   (C5_amended_token_validation_unconditional demoSafeLoad demoRender
      { actions := "- name: hello\n  cmd: echo hello", auth_enabled := true,
        tokens := some "- 1", port := 8000 }
      "old content" _ rfl rfl rfl).1 "- 1" (Yaml.seq [Yaml.int 1]) rfl rfl rfl,
   (C5_amended_token_validation_unconditional demoSafeLoad demoRender
      { actions := "- name: hello\n  cmd: echo hello", auth_enabled := true,
        tokens := none, port := 8000 }
      "old content" _ rfl rfl rfl).2 rfl⟩

/-- C6 as stated is false: `_update_config_file` reads the port but never
validates it.  A port far outside the TCP range (70000) is accepted: with
otherwise valid options the charm still reports
ActiveStatus("Actions configured") and writes the config file. -/
theorem C6_counterexample_out_of_range_port_accepted :
    (65535 < (70000 : Int)) ∧
    (update_config_file demoSafeLoad demoRender
      { actions := "- name: hello\n  cmd: echo hello", auth_enabled := false,
        tokens := none, port := 70000 }
      "old content").status = Status.active "Actions configured" :=
  ⟨by norm_num, rfl⟩

/-- C6 amended: the charm performs NO port-range validation.  For every
integer port, even one outside 1–65535, an otherwise valid configuration
is accepted with ActiveStatus("Actions configured") and the port is passed
through to the rendered config file; a range failure could only surface
later, in the external server library binding the socket. -/
theorem C6_amended_port_never_validated
    (safeLoad : String → Except String Yaml)
    (render : Yaml → Bool → Option Yaml → Int → String)
    (cfg : CharmConfig) (fileBefore : String) (a : Yaml) (p : Int)
    ( _hp : p < 1 ∨ 65535 < p)
    (hparse : safeLoad cfg.actions = .ok a)
    (hnn : yamlIsNull a = false)
    (hval : valid_actions a = true)
    (htok : cfg.tokens = none) :
    update_config_file safeLoad render { cfg with port := p } fileBefore
      = { status := Status.active "Actions configured"
          fileAfter := render a cfg.auth_enabled none p } := by
  simp [update_config_file, hparse, hnn, hval, htok]

/-- Witness for C6 (amended) at the out-of-range port 70000. -/
theorem C6_amended_port_never_validated_witness :
    ((70000 : Int) < 1 ∨ 65535 < (70000 : Int)) ∧
    update_config_file demoSafeLoad demoRender
      { actions := "- name: hello\n  cmd: echo hello", auth_enabled := false,
        tokens := none, port := 70000 }
      "old content"
      = { status := Status.active "Actions configured"
          fileAfter := demoRender
            (Yaml.seq [Yaml.map [(.str "name", .str "hello"),
              (.str "cmd", .str "echo hello")]]) false none 70000 } :=
  ⟨Or.inr (by norm_num),
   C6_amended_port_never_validated demoSafeLoad demoRender
    { actions := "- name: hello\n  cmd: echo hello", auth_enabled := false,
      tokens := none, port := 70000 }
    "old content" _ 70000 (Or.inr (by norm_num)) rfl rfl rfl rfl⟩

/-- C10: selective atomicity of `_update_config_file`.  On an actions
YAML parse error, an invalid actions structure, a tokens parse error or an
invalid tokens structure it returns before `_write_config_file`, leaving
the on-disk config file unchanged; but when the actions value parses to
null it DOES write — truncating the file to empty content — and then
reports BlockedStatus("Actions not configured"). -/
theorem C10_update_config_file_selective_atomicity
    (safeLoad : String → Except String Yaml)
    (render : Yaml → Bool → Option Yaml → Int → String)
    (cfg : CharmConfig) (fileBefore : String) :
    (∀ e, safeLoad cfg.actions = .error e →
      update_config_file safeLoad render cfg fileBefore
        = { status := .blocked "Invalid actions configuration"
            fileAfter := fileBefore }) ∧
    (∀ a, safeLoad cfg.actions = .ok a → yamlIsNull a = false →
      valid_actions a = false →
      update_config_file safeLoad render cfg fileBefore
        = { status := .blocked "Invalid actions structure"
            fileAfter := fileBefore }) ∧
    (∀ a ts e, safeLoad cfg.actions = .ok a → yamlIsNull a = false →
      valid_actions a = true → cfg.tokens = some ts → safeLoad ts = .error e →
      update_config_file safeLoad render cfg fileBefore
        = { status := .blocked "Invalid tokens configuration"
            fileAfter := fileBefore }) ∧
    (∀ a ts t, safeLoad cfg.actions = .ok a → yamlIsNull a = false →
      valid_actions a = true → cfg.tokens = some ts → safeLoad ts = .ok t →
      tokens_valid_dict t = false →
      update_config_file safeLoad render cfg fileBefore
        = { status := .blocked "Invalid tokens structure"
            fileAfter := fileBefore }) ∧
    (safeLoad cfg.actions = .ok .null →
      update_config_file safeLoad render cfg fileBefore
        = { status := .blocked "Actions not configured", fileAfter := "" }) := by
  refine ⟨?_, ?_, ?_, ?_, ?_⟩
  · intro e he
    simp [update_config_file, he]
  · intro a ha hnn hv
    simp [update_config_file, ha, hnn, hv]
  · intro a ts e ha hnn hv htk hts
    simp [update_config_file, ha, hnn, hv, htk, hts]
  · intro a ts t ha hnn hv htk hts htv
    simp [update_config_file, ha, hnn, hv, htk, hts, htv]
  · intro ha
    simp [update_config_file, ha, yamlIsNull]

/-- Witness for C10: under `demoSafeLoad`, the unparseable actions
document `"[broken"` leaves the file untouched, the bad tokens document
`"- 1"` leaves the file untouched, and the null actions document `""`
truncates the file to empty. -/
theorem C10_update_config_file_selective_atomicity_witness :
    update_config_file demoSafeLoad demoRender
      { actions := "[broken", auth_enabled := false, tokens := none, port := 8000 }
      "old content"
      = { status := .blocked "Invalid actions configuration"
          fileAfter := "old content" } ∧
    update_config_file demoSafeLoad demoRender
      { actions := "- name: hello\n  cmd: echo hello", auth_enabled := false,
        tokens := some "- 1", port := 8000 }
      "old content"
      = { status := .blocked "Invalid tokens structure"
          fileAfter := "old content" } ∧
    update_config_file demoSafeLoad demoRender
      { actions := "", auth_enabled := false, tokens := none, port := 8000 }
      "old content"
      = { status := .blocked "Actions not configured", fileAfter := "" } :=
  ⟨(C10_update_config_file_selective_atomicity demoSafeLoad demoRender
      { actions := "[broken", auth_enabled := false, tokens := none, port := 8000 }
      "old content").1 "[broken" rfl,
   (C10_update_config_file_selective_atomicity demoSafeLoad demoRender
      { actions := "- name: hello\n  cmd: echo hello", auth_enabled := false,
        tokens := some "- 1", port := 8000 }
      "old content").2.2.2.1
      (Yaml.seq [Yaml.map [(.str "name", .str "hello"),
        (.str "cmd", .str "echo hello")]])
      "- 1" (Yaml.seq [Yaml.int 1]) rfl rfl rfl rfl rfl rfl,
   (C10_update_config_file_selective_atomicity demoSafeLoad demoRender
      { actions := "", auth_enabled := false, tokens := none, port := 8000 }
      "old content").2.2.2.2 rfl⟩

/-- C7: with auth enabled, a request presenting `Bearer t` where `t` is a
key of the token table resolves to the mapped identity; a missing
authorization header, a non-Bearer scheme, or a token that is not a key
of the table yields Unauthorized (HTTP 401). -/
theorem C7_bearer_token_resolution
    (tokens : List (String × String)) (t scheme ident : String) :
    (verify_token tokens t = some ident →
      authenticate tokens (.credential "Bearer" t) = .ok ident) ∧
    (authenticate tokens .missing = .error 401) ∧
    (scheme ≠ "Bearer" →
      authenticate tokens (.credential scheme t) = .error 401) ∧
    (verify_token tokens t = none →
      authenticate tokens (.credential "Bearer" t) = .error 401) := by
  refine ⟨?_, rfl, ?_, ?_⟩
  · intro h
    simp [authenticate, h]
  · intro h
    simp [authenticate, h]
  · intro h
    simp [authenticate, h]

/-- Witness for C7 at the spec §8 example table `{"abc123": "alice"}`:
`Bearer abc123` resolves to `alice`; no header, a `Basic` scheme and
`Bearer wrong` each give 401. -/
theorem C7_bearer_token_resolution_witness :
    authenticate [("abc123", "alice")] (.credential "Bearer" "abc123")
      = .ok "alice" ∧
    authenticate [("abc123", "alice")] .missing = .error 401 ∧
    authenticate [("abc123", "alice")] (.credential "Basic" "abc123")
      = .error 401 ∧
    authenticate [("abc123", "alice")] (.credential "Bearer" "wrong")
      = .error 401 :=
  ⟨(C7_bearer_token_resolution [("abc123", "alice")] "abc123" "Basic" "alice").1 rfl,
   (C7_bearer_token_resolution [("abc123", "alice")] "abc123" "Basic" "alice").2.1,
   (C7_bearer_token_resolution [("abc123", "alice")] "abc123" "Basic" "alice").2.2.1
     (by decide),
   (C7_bearer_token_resolution [("abc123", "alice")] "wrong" "Basic" "alice").2.2.2 rfl⟩

/-- C9 as stated is false under the spec's authentication contract: a
configured token whose mapped identity is the empty string IS a match —
`verify_token` returns the (empty) identity and the request is authorized,
not rejected with 401. -/
theorem C9_counterexample_empty_identity_not_rejected :
    verify_token [("abc123", "")] "abc123" = some "" ∧
    authenticate [("abc123", "")] (.credential "Bearer" "abc123") = .ok "" ∧
    (Except.ok "" : Except Nat String) ≠ .error 401 :=
  ⟨rfl, rfl, by simp⟩

/-- C9 amended: a bearer token present in the token table with the
empty-string identity is treated as AUTHORIZED: `verify_token` returns
`some ""`, which counts as a match, so the request succeeds rather than
being rejected with 401; 401 arises only for a missing header, a
non-Bearer scheme, or a token absent from the table. -/
theorem C9_amended_empty_identity_authorized
    (tokens : List (String × String)) (t : String)
    (h : verify_token tokens t = some "") :
    authenticate tokens (.credential "Bearer" t) = .ok "" ∧
    authenticate tokens (.credential "Bearer" t) ≠ .error 401 := by
  have hok : authenticate tokens (.credential "Bearer" t) = .ok "" := by
    simp [authenticate, h]
  exact ⟨hok, by rw [hok]; simp⟩

/-- Witness for C9 (amended) at the table `{"abc123": ""}`. -/
theorem C9_amended_empty_identity_authorized_witness :
    authenticate [("abc123", "")] (.credential "Bearer" "abc123") = .ok "" ∧
    authenticate [("abc123", "")] (.credential "Bearer" "abc123") ≠ .error 401 :=
  C9_amended_empty_identity_authorized [("abc123", "")] "abc123" rfl

/-- The function `Char.toLower` never turns a non-space character into the space
character: its lowering branch lands in the range of lowercase basic
latin, and otherwise it is the identity. -/
theorem toLower_ne_space {c : Char} (h : c ≠ ' ') : Char.toLower c ≠ ' ' := by
  unfold Char.toLower
  simp only []
  by_cases hc : c.toNat ≥ 65 ∧ c.toNat ≤ 90
  · rw [if_pos hc]
    intro hEq
    have h2 : (Char.ofNat (c.toNat + 32)).toNat = c.toNat + 32 := by
      rw [Char.ofNat, dif_pos (Or.inl (by omega))]
      simp [Char.ofNatAux, Char.toNat, UInt32.toNat, BitVec.toNat_ofNatLt]
    rw [hEq] at h2
    have h3 : (' ' : Char).toNat = 32 := rfl
    omega
  · rw [if_neg hc]
    exact h

/-- Replacing a space by an underscore commutes with lowering on every
single character: lowering never produces a space, and both the space and
the underscore are fixed points of lowering. -/
theorem toLower_replaceSpace_comm (c : Char) :
    Char.toLower (if c = ' ' then '_' else c)
      = (if Char.toLower c = ' ' then '_' else Char.toLower c) := by
  by_cases h : c = ' '
  · subst h; decide
  · rw [if_neg h, if_neg (toLower_ne_space h)]

/-- C8: for every action name the derived route path equals the spec §3
formula — `"/"` followed by the lowercase form of the name with every
space replaced by an underscore.  Replacing spaces before lowercasing (as
`configure_routes` does) agrees with lowercasing before replacing (as the
spec's formula reads), for every input string. -/
theorem C8_route_path_matches_spec_formula (name : String) :
    route_path name = spec_route_path name := by
  unfold route_path spec_route_path route_name
  show ("/" : String)
        ++ String.mk (((name.data.map fun c => if c = ' ' then '_' else c)).map Char.toLower)
      = ("/" : String)
        ++ String.mk ((name.data.map Char.toLower).map fun c => if c = ' ' then '_' else c)
  rw [List.map_map, List.map_map]
  have hcomp : (Char.toLower ∘ fun c => if c = ' ' then '_' else c)
      = ((fun c => if c = ' ' then '_' else c) ∘ Char.toLower) := by
    funext c
    exact toLower_replaceSpace_comm c
  rw [hcomp]

end TaskAPI
